import Mathlib

/-!
Verification development for the technical-analysis report generator
(technical_analysis_project.py).  The embedding models the candidate
fetch (fetch_strong_buy_stocks), the indicator computations (two rolling
moving averages and the RSI momentum oscillator) and the per-candidate
report assembly loop (generate_technical_analysis_pdf).

Machine floats are modelled over the rationals.  The IEEE special values
that pandas produces and that change observable behaviour are modelled
explicitly: a rolling mean is undefined before its window holds 14
values, a positive quantity divided by zero is treated as plus infinity
(so the RSI formula collapses to 100), and zero divided by zero is NaN
(the RSI value is undefined there).
-/

-- ## Candidate fetch: fetch_strong_buy_stocks, source lines 25 to 51

structure StocksDbRow where
  symbol : String
  Rec_Key : String
  Country : String
  Market_cap : ℚ
deriving DecidableEq

/-- Source line 30: each single-quote character (code point 39) in the
user-supplied filter string is doubled before any query construction. -/
def escapeQuotes (s : String) : String :=
  String.mk (s.data.foldr
    (fun c acc => if c = Char.ofNat 39 then c :: c :: acc else c :: acc) [])

/-- The WHERE clause of query_filtered, source lines 44 to 46.  The
Rec_Key comparison is against the literal string strong_buy. -/
def whereClause (min_market_cap : ℚ) (row : StocksDbRow) : Bool :=
  (row.Rec_Key == "strong_buy") && (row.Country == "United States") &&
    (decide (min_market_cap < row.Market_cap))

/-- Source lines 25 to 51: the sanitized key is computed (line 30) but the
query interpolates only min_market_cap; the table is filtered by the
WHERE clause above. -/
def fetch_strong_buy_stocks (table : List StocksDbRow) (min_market_cap : ℚ)
    (rec_key : String) : List StocksDbRow :=
  let _rec_key_safe := escapeQuotes rec_key
  table.filter (whereClause min_market_cap)

-- ## Indicator computations on the Close column, source lines 97 to 110

structure PriceBar where
  Open : ℚ
  High : ℚ
  Low : ℚ
  Close : ℚ
  Volume : ℤ
deriving DecidableEq

/-- rolling(window := w, min_periods := 1).mean() at position i: the mean
of the last values up to and including position i, at most w of them
(source lines 97 to 103). -/
def rollingMeanAt (w : ℕ) (xs : List ℚ) (i : ℕ) : ℚ :=
  let win := (xs.take (i + 1)).drop (i + 1 - w)
  win.sum / (win.length : ℚ)

/-- Close.diff() at position i (source line 106).  The leading NaN at
i = 0 is recorded as 0 here because both where-clauses on lines 107 and
108 replace it by 0 (NaN compares false against 0). -/
def dRaw (xs : List ℚ) (i : ℕ) : ℚ :=
  if i = 0 then 0 else xs.getD i 0 - xs.getD (i - 1) 0

/-- delta.where(delta greater than 0, 0), source line 107. -/
def gainRaw (xs : List ℚ) (i : ℕ) : ℚ :=
  if 0 < dRaw xs i then dRaw xs i else 0

/-- minus delta.where(delta less than 0, 0), source line 108. -/
def lossRaw (xs : List ℚ) (i : ℕ) : ℚ :=
  if dRaw xs i < 0 then -dRaw xs i else 0

/-- Sum of the 14-wide trailing gain window ending at position i. -/
def gainSum (xs : List ℚ) (i : ℕ) : ℚ :=
  ∑ k ∈ Finset.range 14, gainRaw xs (i - k)

/-- Sum of the 14-wide trailing loss window ending at position i. -/
def lossSum (xs : List ℚ) (i : ℕ) : ℚ :=
  ∑ k ∈ Finset.range 14, lossRaw xs (i - k)

/-- An oscillator entry: either a number or the NaN the code produces
where the value is undefined. -/
inductive RSIVal where
  | undef : RSIVal
  | val : ℚ → RSIVal
deriving DecidableEq

/-- RSI at position i, source lines 106 to 110:
100 - 100 / (1 + gain / loss) with pandas float semantics.  The
rolling(14).mean() columns are NaN until 14 values exist, which happens
first at position 13 because the position-0 entry of the gain and loss
columns is the zero produced from the leading diff NaN.  Where both
means exist: gain / 0 with gain positive is plus infinity and the
formula yields exactly 100; 0 / 0 is NaN and the RSI entry is NaN. -/
def rsiAt (xs : List ℚ) (i : ℕ) : RSIVal :=
  if 13 ≤ i ∧ i < xs.length then
    if lossSum xs i / 14 = 0 then
      if gainSum xs i / 14 = 0 then RSIVal.undef else RSIVal.val 100
    else RSIVal.val (100 - 100 / (1 + (gainSum xs i / 14) / (lossSum xs i / 14)))
  else RSIVal.undef

-- ## Per-candidate fundamentals, source lines 70 to 86

/-- A raw cell of the candidate dataframe: a number, the NaN that pandas
uses for an absent (SQL NULL) numeric value, or non-numeric text. -/
inductive RawField where
  | num : ℚ → RawField
  | nanv : RawField
  | txt : String → RawField
deriving DecidableEq

/-- Source lines 79 to 86: float(x) if pd.notna(x) else 0.0, with the
ValueError or TypeError raised on non-numeric text also mapped to 0.0.
Only the MTD and YTD columns go through this conversion. -/
def floatOrZero : RawField → ℚ
  | RawField.num q => q
  | RawField.nanv => 0
  | RawField.txt _ => 0

structure StockRow where
  symbol : String
  Target_LP : RawField
  Target_Mean_P : RawField
  Sector : String
  Anlsts : ℤ
  Rec_Mean : ℚ
  Market_Cap : RawField
  MTD_Change : RawField
  YTD_Change : RawField
deriving DecidableEq

/-- Formatting a target level with the fixed-point format of source
lines 158 and 166: numbers format, NaN formats as the text nan, and a
non-numeric text cell raises a ValueError. -/
def formatTargetLabel : RawField → Except String RawField
  | RawField.txt s => Except.error ("unsupported format string passed to " ++ s)
  | f => Except.ok f

/-- The data content of one rendered page, source lines 112 to 263: the
title and reference lines carry the row fields, the stats callout
carries the last Close, the percent change against the second-to-last
Close and the last entries of the two moving-average columns and the
RSI column. -/
structure Page where
  ticker : String
  recKeyShown : String
  targetLp : RawField
  targetMeanP : RawField
  marketCapShown : RawField
  mtdChange : ℚ
  ytdChange : ℚ
  closes : List ℚ
  ma50Last : ℚ
  ma200Last : ℚ
  rsiLast : RSIVal
  currentPrice : ℚ
  priceChangePct : ℚ
deriving DecidableEq

/-- The pandas IndexError message raised by iloc on a missing position
(source line 234 when only one bar exists). -/
def iloc2Msg : String := "single positional indexer is out-of-bounds"

/-- What the price-history fetch for one candidate does: return a series
of bars (possibly empty), raise a permission-class error, or raise any
other exception. -/
inductive FetchOutcome where
  | series : List PriceBar → FetchOutcome
  | raisesPerm : String → FetchOutcome
  | raises : String → FetchOutcome
deriving DecidableEq

/-- The terminal state of one candidate inside the loop body. -/
inductive CandResult where
  | page : Page → CandResult
  | skipEmpty : CandResult
  | permErr : String → CandResult
  | err : String → CandResult
deriving DecidableEq

/-- The page composed for one candidate from its row and the Close
column of its fetched series (source lines 112 to 263). -/
def mkPage (rk : String) (row : StockRow) (closes : List ℚ) : Page :=
  { ticker := row.symbol
    recKeyShown := rk
    targetLp := row.Target_LP
    targetMeanP := row.Target_Mean_P
    marketCapShown := row.Market_Cap
    mtdChange := floatOrZero row.MTD_Change
    ytdChange := floatOrZero row.YTD_Change
    closes := closes
    ma50Last := rollingMeanAt 50 closes (closes.length - 1)
    ma200Last := rollingMeanAt 200 closes (closes.length - 1)
    rsiLast := rsiAt closes (closes.length - 1)
    currentPrice := closes.getD (closes.length - 1) 0
    priceChangePct := (closes.getD (closes.length - 1) 0 - closes.getD (closes.length - 2) 0)
      / closes.getD (closes.length - 2) 0 * 100 }

/-- One iteration of the try body, source lines 69 to 265: field
extraction, fetch, the empty check of line 93, the indicator and chart
composition (a non-numeric target cell raises in the label format), and
the stats callout whose iloc lookup of the second-to-last Close raises
when fewer than two bars exist. -/
def processCandidate (rk : String) (row : StockRow) (fo : FetchOutcome) : CandResult :=
  match fo with
  | FetchOutcome.raisesPerm m => CandResult.permErr m
  | FetchOutcome.raises m => CandResult.err m
  | FetchOutcome.series bars =>
      if (bars.map PriceBar.Close).isEmpty then CandResult.skipEmpty
      else
        match formatTargetLabel row.Target_LP, formatTargetLabel row.Target_Mean_P with
        | Except.error m, _ => CandResult.err m
        | Except.ok _, Except.error m => CandResult.err m
        | Except.ok _, Except.ok _ =>
            if 2 ≤ (bars.map PriceBar.Close).length then
              CandResult.page (mkPage rk row (bars.map PriceBar.Close))
            else CandResult.err iloc2Msg

/-- The two lines printed by the PermissionError handler, source lines
267 to 269 (first line; the second carries the exception text). -/
def permDeniedMsg (out ticker : String) : String :=
  "Error processing " ++ ticker ++ ": Permission denied. Please close the PDF file "
    ++ out ++ " if it is open in another program."

/-- The log lines one candidate contributes, source lines 94, 265, 268,
269 and 272. -/
def stepLog (out sym : String) : CandResult → List String
  | CandResult.page _ => ["Added " ++ sym ++ " page to " ++ out]
  | CandResult.skipEmpty => ["Skipping " ++ sym ++ ": no price data from Yahoo Finance."]
  | CandResult.err m => ["Error processing " ++ sym ++ ": " ++ m]
  | CandResult.permErr m => [permDeniedMsg out sym, "Full error: " ++ m]

/-- The pages one candidate contributes: exactly one on success
(pdf.savefig, source line 262), none otherwise. -/
def stepPages : CandResult → List Page
  | CandResult.page p => [p]
  | _ => []

structure RunResult where
  pages : List Page
  logs : List String
deriving DecidableEq

/-- The candidate loop of source lines 68 to 273: every per-candidate
outcome, including PermissionError, ends in continue. -/
def runLoop (out rk : String) : List (StockRow × FetchOutcome) → RunResult
  | [] => { pages := [], logs := [] }
  | (row, fo) :: rest =>
      let res := processCandidate rk row fo
      let r := runLoop out rk rest
      { pages := stepPages res ++ r.pages, logs := stepLog out row.symbol res ++ r.logs }

/-- generate_technical_analysis_pdf, source lines 54 to 275: the empty
dataframe early return of lines 59 to 61, then the loop and the final
completion line of line 275. -/
def generate_technical_analysis_pdf (df : List (StockRow × FetchOutcome))
    (output_path rk : String) : RunResult :=
  if df.isEmpty then { pages := [], logs := ["No data returned. Nothing to plot."] }
  else
    let r := runLoop output_path rk df
    { pages := r.pages, logs := r.logs ++ ["PDF report created: " ++ output_path] }

/-- The page one candidate pair yields, if any. -/
def pageOf (rk : String) (c : StockRow × FetchOutcome) : Option Page :=
  match processCandidate rk c.1 c.2 with
  | CandResult.page p => some p
  | _ => none

/-- Projection used to observe the target-low level a composed page
carries. -/
def pageTargetLp : CandResult → Option RawField
  | CandResult.page p => some p.targetLp
  | _ => none

-- ## Concrete data used by witnesses and counterexamples

def demoTable : List StocksDbRow :=
  [{ symbol := "NVDA", Rec_Key := "strong_buy", Country := "United States", Market_cap := 100 }]

def goodRow : StockRow :=
  { symbol := "BBB", Target_LP := RawField.num 150, Target_Mean_P := RawField.num 160,
    Sector := "Tech", Anlsts := 20, Rec_Mean := 3 / 2, Market_Cap := RawField.num 50,
    MTD_Change := RawField.num 5, YTD_Change := RawField.num 10 }

def permRow : StockRow := { goodRow with symbol := "AAA" }

def errRow : StockRow := { goodRow with symbol := "DDD" }

def nanLpRow : StockRow :=
  { goodRow with symbol := "CCC", Target_LP := RawField.nanv, MTD_Change := RawField.nanv }

def bar (o h l c : ℚ) : PriceBar :=
  { Open := o, High := h, Low := l, Close := c, Volume := 1000 }

def goodBars : List PriceBar := [bar 100 101 99 100, bar 101 103 100 102]

def b0 : PriceBar := bar 100 101 99 100

def goodPage : Page := mkPage "strong_buy" goodRow (goodBars.map PriceBar.Close)

def upList : List ℚ := [1, 2, 3, 4, 5, 6, 7, 8, 9, 10, 11, 12, 13, 14]

def flatList : List ℚ := [5, 5, 5, 5, 5, 5, 5, 5, 5, 5, 5, 5, 5, 5]

def downList : List ℚ := [14, 13, 12, 11, 10, 9, 8, 7, 6, 5, 4, 3, 2, 1]

def demoXs : List ℚ := [2, 4]

def demoCands2 : List (StockRow × FetchOutcome) :=
  [(permRow, FetchOutcome.raisesPerm "locked"), (goodRow, FetchOutcome.series goodBars)]

def demoCands9 : List (StockRow × FetchOutcome) :=
  [(errRow, FetchOutcome.raises "boom"), (goodRow, FetchOutcome.series goodBars)]

-- ## Helper lemmas

theorem runLoop_cons (out rk : String) (row : StockRow) (fo : FetchOutcome)
    (rest : List (StockRow × FetchOutcome)) :
    runLoop out rk ((row, fo) :: rest) =
      { pages := stepPages (processCandidate rk row fo) ++ (runLoop out rk rest).pages,
        logs := stepLog out row.symbol (processCandidate rk row fo) ++ (runLoop out rk rest).logs } := rfl

-- ## Claim theorems

/-- Claim C1 (code-bug evidence): the candidate fetch ignores its
recommendation-key argument.  The result is the same for any two keys,
and with the key buy it still returns the strong_buy row, whose key does
not equal the supplied filter string. -/
theorem fetch_ignores_rec_key :
    (∀ (t : List StocksDbRow) (m : ℚ) (k1 k2 : String),
      fetch_strong_buy_stocks t m k1 = fetch_strong_buy_stocks t m k2) ∧
    fetch_strong_buy_stocks demoTable 20 "buy" = demoTable ∧
    (∀ r ∈ fetch_strong_buy_stocks demoTable 20 "buy", r.Rec_Key ≠ "buy") := by
  refine ⟨fun t m k1 k2 => rfl, by decide, by decide⟩

/-- Claim C2 counterexample: a PermissionError on the first candidate is
not fatal; the second candidate is still processed and contributes the
only page, while the permission message naming the output resource is
merely logged. -/
theorem perm_error_not_fatal_cex :
    ((generate_technical_analysis_pdf demoCands2 "report.pdf" "strong_buy").pages.map Page.ticker)
        = ["BBB"] ∧
    permDeniedMsg "report.pdf" "AAA" ∈
      (generate_technical_analysis_pdf demoCands2 "report.pdf" "strong_buy").logs := by
  decide

/-- Claim C2 (amended): a PermissionError raised while processing one
candidate is caught inside the loop; the run logs the message naming the
output resource plus the exception text and continues with the remaining
candidates, whose pages are unaffected. -/
theorem perm_error_per_candidate_skip (out rk m : String) (row : StockRow)
    (rest : List (StockRow × FetchOutcome)) :
    runLoop out rk ((row, FetchOutcome.raisesPerm m) :: rest) =
      { pages := (runLoop out rk rest).pages,
        logs := permDeniedMsg out row.symbol :: ("Full error: " ++ m)
          :: (runLoop out rk rest).logs } := rfl

/-- Claim C8: a candidate whose fetch returns an empty series yields a
skip log line, zero pages for that symbol, and the run continues with
the remaining candidates unchanged. -/
theorem empty_series_skipped (out rk : String) (row : StockRow)
    (rest : List (StockRow × FetchOutcome)) :
    runLoop out rk ((row, FetchOutcome.series []) :: rest) =
      { pages := (runLoop out rk rest).pages,
        logs := ("Skipping " ++ row.symbol ++ ": no price data from Yahoo Finance.")
          :: (runLoop out rk rest).logs } := rfl

/-- Claim C9: pages of a run are exactly the per-candidate successes in
input order (a failure at any position leaves the later candidates and
their page order untouched), and every candidate whose fetch or render
raises a generic exception is logged with its symbol and message. -/
theorem run_isolation_and_order (out rk : String) (cands : List (StockRow × FetchOutcome)) :
    (runLoop out rk cands).pages = cands.filterMap (pageOf rk) ∧
    ∀ row m, (row, FetchOutcome.raises m) ∈ cands →
      ("Error processing " ++ row.symbol ++ ": " ++ m) ∈ (runLoop out rk cands).logs := by
  induction cands with
  | nil =>
      refine ⟨rfl, ?_⟩
      intro row m hmem
      exact absurd hmem (List.not_mem_nil _)
  | cons c rest ih =>
      obtain ⟨row0, fo0⟩ := c
      constructor
      · show stepPages (processCandidate rk row0 fo0) ++ (runLoop out rk rest).pages = _
        rw [List.filterMap_cons]
        cases hpc : processCandidate rk row0 fo0 <;>
          simp [pageOf, hpc, stepPages, ih.1]
      · intro row m hmem
        rcases List.mem_cons.mp hmem with heq | htail
        · injection heq with e1 e2
          subst e1
          show _ ∈ stepLog out row.symbol (processCandidate rk row fo0) ++ (runLoop out rk rest).logs
          rw [← e2]
          exact List.mem_append_left _ (List.mem_singleton_self _)
        · show _ ∈ stepLog out row0.symbol (processCandidate rk row0 fo0) ++ (runLoop out rk rest).logs
          exact List.mem_append_right _ (ih.2 row m htail)

theorem run_isolation_and_order_witness :
    ("Error processing " ++ errRow.symbol ++ ": " ++ "boom") ∈
      (runLoop "report.pdf" "strong_buy" demoCands9).logs :=
  (run_isolation_and_order "report.pdf" "strong_buy" demoCands9).2 errRow "boom"
    (List.mem_cons_self _ _)

/-- Claim C10: a one-bar series passes the empty check, the indicator
computations succeed on it, but the stats callout raises the iloc
IndexError looking up the second-to-last close, so the candidate ends in
the generic error state, contributes no page, is logged, and the run
continues with the remaining candidates. -/
theorem one_bar_series_no_page (out rk : String) (row : StockRow) (b : PriceBar)
    (rest : List (StockRow × FetchOutcome))
    (h1 : ∃ q, row.Target_LP = RawField.num q)
    (h2 : ∃ q, row.Target_Mean_P = RawField.num q) :
    processCandidate rk row (FetchOutcome.series [b]) = CandResult.err iloc2Msg ∧
    (runLoop out rk ((row, FetchOutcome.series [b]) :: rest)).pages = (runLoop out rk rest).pages ∧
    ("Error processing " ++ row.symbol ++ ": " ++ iloc2Msg) ∈
      (runLoop out rk ((row, FetchOutcome.series [b]) :: rest)).logs ∧
    rsiAt [b.Close] 0 = RSIVal.undef ∧
    rollingMeanAt 50 [b.Close] 0 = b.Close := by
  obtain ⟨q1, e1⟩ := h1
  obtain ⟨q2, e2⟩ := h2
  obtain ⟨sym, tlp, tmp, sec, an, rm, mc, mtd, ytd⟩ := row
  dsimp only at e1 e2
  subst e1
  subst e2
  refine ⟨rfl, rfl, ?_, rfl, ?_⟩
  · exact List.mem_cons_self _ _
  · simp [rollingMeanAt]

theorem one_bar_series_no_page_witness :
    processCandidate "strong_buy" goodRow (FetchOutcome.series [b0]) = CandResult.err iloc2Msg ∧
    (runLoop "report.pdf" "strong_buy" [(goodRow, FetchOutcome.series [b0])]).pages =
      (runLoop "report.pdf" "strong_buy" []).pages ∧
    ("Error processing " ++ goodRow.symbol ++ ": " ++ iloc2Msg) ∈
      (runLoop "report.pdf" "strong_buy" [(goodRow, FetchOutcome.series [b0])]).logs ∧
    rsiAt [b0.Close] 0 = RSIVal.undef ∧
    rollingMeanAt 50 [b0.Close] 0 = b0.Close :=
  one_bar_series_no_page "report.pdf" "strong_buy" goodRow b0 [] ⟨150, rfl⟩ ⟨160, rfl⟩

/-- Claim C5 counterexample: an absent (NaN) Target_LP cell is not
normalized to 0.0; the composed page carries the NaN value itself. -/
theorem absent_target_propagates_cex :
    pageTargetLp (processCandidate "strong_buy" nanLpRow (FetchOutcome.series goodBars))
        = some RawField.nanv ∧
    RawField.nanv ≠ RawField.num 0 := by
  decide

/-- Claim C5 (amended): on every composed page only the MTD and YTD
columns pass through the to-zero normalization; the target levels and
the market cap are carried exactly as they appear in the row, while the
normalization itself maps NaN and non-numeric text to 0. -/
theorem only_mtd_ytd_normalized (rk : String) (row : StockRow) (bars : List PriceBar) (p : Page)
    (h : processCandidate rk row (FetchOutcome.series bars) = CandResult.page p) :
    p.mtdChange = floatOrZero row.MTD_Change ∧
    p.ytdChange = floatOrZero row.YTD_Change ∧
    p.targetLp = row.Target_LP ∧
    p.targetMeanP = row.Target_Mean_P ∧
    p.marketCapShown = row.Market_Cap ∧
    floatOrZero RawField.nanv = 0 ∧
    ∀ s, floatOrZero (RawField.txt s) = 0 := by
  simp only [processCandidate] at h
  split at h
  · exact absurd h (by simp)
  · split at h
    · exact absurd h (by simp)
    · exact absurd h (by simp)
    · split at h
      · injection h with e
        subst e
        exact ⟨rfl, rfl, rfl, rfl, rfl, rfl, fun s => rfl⟩
      · exact absurd h (by simp)

theorem only_mtd_ytd_normalized_witness :
    goodPage.mtdChange = floatOrZero goodRow.MTD_Change ∧
    goodPage.ytdChange = floatOrZero goodRow.YTD_Change ∧
    goodPage.targetLp = goodRow.Target_LP ∧
    goodPage.targetMeanP = goodRow.Target_Mean_P ∧
    goodPage.marketCapShown = goodRow.Market_Cap ∧
    floatOrZero RawField.nanv = 0 ∧
    (∀ s, floatOrZero (RawField.txt s) = 0) :=
  only_mtd_ytd_normalized "strong_buy" goodRow goodBars goodPage rfl

theorem sum_take_eq_range (xs : List ℚ) :
    ∀ n, n ≤ xs.length → (xs.take n).sum = ∑ k ∈ Finset.range n, xs.getD k 0 := by
  induction xs with
  | nil =>
      intro n hn
      have : n = 0 := Nat.le_zero.mp hn
      subst this
      simp
  | cons a t ih =>
      intro n hn
      cases n with
      | zero => simp
      | succ m =>
          rw [List.take_succ_cons, List.sum_cons, Finset.sum_range_succ']
          simp only [List.getD_cons_succ, List.getD_cons_zero]
          rw [ih m (by simpa using hn)]
          ring

theorem sum_take_drop (xs : List ℚ) (lo hi : ℕ) (hlo : lo ≤ hi) (hhi : hi ≤ xs.length) :
    ((xs.take hi).drop lo).sum = ∑ k ∈ Finset.Ico lo hi, xs.getD k 0 := by
  have h1 : ((xs.take hi).take lo).sum + ((xs.take hi).drop lo).sum = (xs.take hi).sum :=
    List.sum_take_add_sum_drop _ lo
  have h2 : (xs.take hi).take lo = xs.take lo := by
    rw [List.take_take, min_eq_left hlo]
  rw [Finset.sum_Ico_eq_sub _ hlo, ← sum_take_eq_range xs hi hhi,
    ← sum_take_eq_range xs lo (le_trans hlo hhi), ← h1, h2]
  ring

theorem rollingMeanAt_eq_Icc (w : ℕ) (hw : 0 < w) (xs : List ℚ) (i : ℕ) (hlen : i < xs.length) :
    rollingMeanAt w xs i =
      (∑ k ∈ Finset.Icc (i + 1 - w) i, xs.getD k 0) / ((i - (i + 1 - w) + 1 : ℕ) : ℚ) := by
  show ((xs.take (i + 1)).drop (i + 1 - w)).sum
      / (((xs.take (i + 1)).drop (i + 1 - w)).length : ℚ) = _
  rw [sum_take_drop xs (i + 1 - w) (i + 1) (Nat.sub_le _ _) hlen]
  have hlen2 : ((xs.take (i + 1)).drop (i + 1 - w)).length = i - (i + 1 - w) + 1 := by
    simp only [List.length_drop, List.length_take]
    omega
  rw [hlen2]
  congr 1

theorem gainRaw_nonneg (xs : List ℚ) (i : ℕ) : 0 ≤ gainRaw xs i := by
  unfold gainRaw
  by_cases h : 0 < dRaw xs i
  · rw [if_pos h]; exact le_of_lt h
  · rw [if_neg h]

theorem lossRaw_nonneg (xs : List ℚ) (i : ℕ) : 0 ≤ lossRaw xs i := by
  unfold lossRaw
  by_cases h : dRaw xs i < 0
  · rw [if_pos h]; exact neg_nonneg.mpr (le_of_lt h)
  · rw [if_neg h]

theorem gainSum_nonneg (xs : List ℚ) (i : ℕ) : 0 ≤ gainSum xs i :=
  Finset.sum_nonneg fun k _ => gainRaw_nonneg xs (i - k)

theorem lossSum_nonneg (xs : List ℚ) (i : ℕ) : 0 ≤ lossSum xs i :=
  Finset.sum_nonneg fun k _ => lossRaw_nonneg xs (i - k)

theorem lossSum_flat : lossSum flatList 13 = 0 := by
  norm_num [lossSum, Finset.sum_range_succ, lossRaw, dRaw, flatList]

theorem gainSum_flat : gainSum flatList 13 = 0 := by
  norm_num [gainSum, Finset.sum_range_succ, gainRaw, dRaw, flatList]

theorem rsiAt_flat : rsiAt flatList 13 = RSIVal.undef := by
  unfold rsiAt
  rw [if_pos (⟨le_refl 13, by norm_num [flatList]⟩ : 13 ≤ 13 ∧ 13 < flatList.length),
    if_pos (by rw [lossSum_flat]; norm_num),
    if_pos (by rw [gainSum_flat]; norm_num)]

theorem dRaw_flat_nonneg : ∀ k, k < 14 → 0 ≤ dRaw flatList (13 - k) := by
  intro k hk
  interval_cases k <;> norm_num [dRaw, flatList]

theorem lossSum_up : lossSum upList 13 = 0 := by
  norm_num [lossSum, Finset.sum_range_succ, lossRaw, dRaw, upList]

theorem gainSum_up : gainSum upList 13 = 13 := by
  norm_num [gainSum, Finset.sum_range_succ, gainRaw, dRaw, upList]

theorem gainSum_down : gainSum downList 13 = 0 := by
  norm_num [gainSum, Finset.sum_range_succ, gainRaw, dRaw, downList]

theorem lossSum_down : lossSum downList 13 = 13 := by
  norm_num [lossSum, Finset.sum_range_succ, lossRaw, dRaw, downList]

theorem rsiAt_down : rsiAt downList 13 = RSIVal.val 0 := by
  unfold rsiAt
  rw [if_pos (⟨le_refl 13, by norm_num [downList]⟩ : 13 ≤ 13 ∧ 13 < downList.length),
    if_neg (by rw [lossSum_down]; norm_num), gainSum_down, lossSum_down]
  norm_num

/-- Claim C6: at every position i of the series, the 50-period column is
the arithmetic mean of the closes over positions max(0, i - 49) to i and
the 200-period column the same with a 200-wide window (the window
shrinks near the start, written with truncated natural subtraction), and
at position 0 both equal the first close exactly. -/
theorem ma_window_spec (xs : List ℚ) (i : ℕ) (hlen : i < xs.length) :
    rollingMeanAt 50 xs i =
      (∑ k ∈ Finset.Icc (i - 49) i, xs.getD k 0) / ((i - (i - 49) + 1 : ℕ) : ℚ) ∧
    rollingMeanAt 200 xs i =
      (∑ k ∈ Finset.Icc (i - 199) i, xs.getD k 0) / ((i - (i - 199) + 1 : ℕ) : ℚ) ∧
    rollingMeanAt 50 xs 0 = xs.getD 0 0 ∧
    rollingMeanAt 200 xs 0 = xs.getD 0 0 := by
  have h0 : 0 < xs.length := Nat.lt_of_le_of_lt (Nat.zero_le i) hlen
  have e50 := rollingMeanAt_eq_Icc 50 (by norm_num) xs i hlen
  have e200 := rollingMeanAt_eq_Icc 200 (by norm_num) xs i hlen
  have z50 := rollingMeanAt_eq_Icc 50 (by norm_num) xs 0 h0
  have z200 := rollingMeanAt_eq_Icc 200 (by norm_num) xs 0 h0
  have h49 : i + 1 - 50 = i - 49 := by omega
  have h199 : i + 1 - 200 = i - 199 := by omega
  refine ⟨?_, ?_, ?_, ?_⟩
  · rw [e50, h49]
  · rw [e200, h199]
  · rw [z50]; norm_num
  · rw [z200]; norm_num

theorem ma_window_spec_witness :
    1 < demoXs.length ∧
    rollingMeanAt 50 demoXs 1 =
      (∑ k ∈ Finset.Icc (1 - 49) 1, demoXs.getD k 0) / ((1 - (1 - 49) + 1 : ℕ) : ℚ) :=
  ⟨by norm_num [demoXs], (ma_window_spec demoXs 1 (by norm_num [demoXs])).1⟩

/-- Claim C7: every defined oscillator entry lies in the closed interval
from 0 to 100; an entry is otherwise the explicit undefined marker. -/
theorem rsi_bounded (xs : List ℚ) (i : ℕ) (v : ℚ) (h : rsiAt xs i = RSIVal.val v) :
    0 ≤ v ∧ v ≤ 100 := by
  unfold rsiAt at h
  by_cases hg : 13 ≤ i ∧ i < xs.length
  case neg => rw [if_neg hg] at h; exact absurd h (by simp)
  case pos =>
    rw [if_pos hg] at h
    by_cases hl : lossSum xs i / 14 = 0
    · rw [if_pos hl] at h
      by_cases hgz : gainSum xs i / 14 = 0
      · rw [if_pos hgz] at h; exact absurd h (by simp)
      · rw [if_neg hgz] at h
        injection h with hv
        subst hv
        norm_num
    · rw [if_neg hl] at h
      injection h with hv
      have hgn : 0 ≤ gainSum xs i / 14 := div_nonneg (gainSum_nonneg xs i) (by norm_num)
      have hln : 0 ≤ lossSum xs i / 14 := div_nonneg (lossSum_nonneg xs i) (by norm_num)
      have htn : 0 ≤ (gainSum xs i / 14) / (lossSum xs i / 14) := div_nonneg hgn hln
      have h1 : (0 : ℚ) < 1 + (gainSum xs i / 14) / (lossSum xs i / 14) := by linarith
      have h2 : 100 / (1 + (gainSum xs i / 14) / (lossSum xs i / 14)) ≤ 100 := by
        rw [div_le_iff₀ h1]; nlinarith
      have h3 : 0 < 100 / (1 + (gainSum xs i / 14) / (lossSum xs i / 14)) := by positivity
      constructor <;> linarith [hv]

theorem rsi_bounded_witness : 0 ≤ (0 : ℚ) ∧ (0 : ℚ) ≤ 100 :=
  rsi_bounded downList 13 0 rsiAt_down

/-- Claim C3 counterexample: on a constant series every one of the last
14 deltas is non-negative and the loss average is exactly 0, yet the
oscillator at position 13 is the non-numeric NaN, not 100: the 0 / 0
ratio is NaN, so the saturate-to-100 policy does not hold there. -/
theorem rsi_zero_window_undef_cex :
    rsiAt flatList 13 = RSIVal.undef ∧ lossSum flatList 13 = 0 ∧
    (∀ k, k < 14 → 0 ≤ dRaw flatList (13 - k)) ∧ 13 < flatList.length :=
  ⟨rsiAt_flat, lossSum_flat, dRaw_flat_nonneg, by norm_num [flatList]⟩

/-- Claim C3 (amended): where the 14-wide window is full, a zero loss
average gives oscillator 100 only when the gain average is nonzero; when
both averages are zero (all 14 deltas exactly zero) the entry is the
non-numeric NaN (undefined); and a window of non-negative deltas does
force the loss average to zero. -/
theorem loss_zero_saturation (xs : List ℚ) (i : ℕ) (h13 : 13 ≤ i) (hlen : i < xs.length) :
    (lossSum xs i = 0 → gainSum xs i ≠ 0 → rsiAt xs i = RSIVal.val 100) ∧
    (lossSum xs i = 0 → gainSum xs i = 0 → rsiAt xs i = RSIVal.undef) ∧
    ((∀ k, k < 14 → 0 ≤ dRaw xs (i - k)) → lossSum xs i = 0) := by
  refine ⟨?_, ?_, ?_⟩
  · intro hl hg
    unfold rsiAt
    rw [if_pos ⟨h13, hlen⟩, if_pos (by rw [hl]; norm_num),
      if_neg (by rw [div_eq_zero_iff]; push_neg; exact ⟨hg, by norm_num⟩)]
  · intro hl hg
    unfold rsiAt
    rw [if_pos ⟨h13, hlen⟩, if_pos (by rw [hl]; norm_num), if_pos (by rw [hg]; norm_num)]
  · intro hd
    unfold lossSum
    refine Finset.sum_eq_zero ?_
    intro k hk
    have hnn := hd k (Finset.mem_range.mp hk)
    unfold lossRaw
    rw [if_neg (not_lt.mpr hnn)]

theorem loss_zero_saturation_witness : rsiAt upList 13 = RSIVal.val 100 :=
  (loss_zero_saturation upList 13 (le_refl 13) (by norm_num [upList])).1
    lossSum_up (by rw [gainSum_up]; norm_num)

/-- Claim C4 counterexample: the oscillator is already defined at index
13, inside the first 14 indices, because the leading diff NaN enters the
gain and loss columns as a zero: on a strictly decreasing series the
value at index 13 is the number 0, not undefined. -/
theorem rsi_defined_at_13_cex :
    rsiAt downList 13 = RSIVal.val 0 ∧ RSIVal.val (0 : ℚ) ≠ RSIVal.undef ∧
    13 < downList.length :=
  ⟨rsiAt_down, fun h => RSIVal.noConfusion h, by norm_num [downList]⟩

/-- Claim C4 (amended): the oscillator is undefined at the first 13
indices (0 through 12); from index 13 on, within the series, both
rolling averages exist (the missing first delta counts as zero) and the
entry is undefined exactly when the gain and loss averages are both
zero. -/
theorem rsi_window_boundary (xs : List ℚ) (i : ℕ) (hlen : i < xs.length) :
    (i ≤ 12 → rsiAt xs i = RSIVal.undef) ∧
    (13 ≤ i → (rsiAt xs i = RSIVal.undef ↔ gainSum xs i = 0 ∧ lossSum xs i = 0)) := by
  constructor
  · intro h12
    unfold rsiAt
    rw [if_neg (by omega : ¬(13 ≤ i ∧ i < xs.length))]
  · intro h13
    unfold rsiAt
    rw [if_pos ⟨h13, hlen⟩]
    by_cases hl : lossSum xs i / 14 = 0
    · have hl0 : lossSum xs i = 0 := by
        rcases div_eq_zero_iff.mp hl with h | h
        · exact h
        · norm_num at h
      rw [if_pos hl]
      by_cases hg : gainSum xs i / 14 = 0
      · have hg0 : gainSum xs i = 0 := by
          rcases div_eq_zero_iff.mp hg with h | h
          · exact h
          · norm_num at h
        rw [if_pos hg]
        exact iff_of_true rfl ⟨hg0, hl0⟩
      · have hg0 : gainSum xs i ≠ 0 := fun hc => hg (by rw [hc]; norm_num)
        rw [if_neg hg]
        exact iff_of_false (fun hc => RSIVal.noConfusion hc) (fun hc => hg0 hc.1)
    · have hl0 : lossSum xs i ≠ 0 := fun hc => hl (by rw [hc]; norm_num)
      rw [if_neg hl]
      exact iff_of_false (fun hc => RSIVal.noConfusion hc) (fun hc => hl0 hc.2)

theorem rsi_window_boundary_witness :
    5 < upList.length ∧
    ((5 ≤ 12 → rsiAt upList 5 = RSIVal.undef) ∧
      (13 ≤ 5 → (rsiAt upList 5 = RSIVal.undef ↔ gainSum upList 5 = 0 ∧ lossSum upList 5 = 0))) :=
  ⟨by norm_num [upList], rsi_window_boundary upList 5 (by norm_num [upList])⟩
